import Mathlib

/-!
Verification of the google-sync resumable upload pipeline.

The definitions below are a shallow embedding of the two core modules:

* `state_manager.py` (`StateManager`): a SQLite-backed ledger with a
  `synced_files` table and an `upload_queue` table.  The database is
  modelled as explicit lists of rows; SQLite timestamps (`datetime.utcnow()`
  ISO strings, which compare chronologically) are modelled as naturals
  supplied by the caller as a clock argument `t`.
* `silo_client.py` (`SiloUploadClient`): the retrying upload loop,
  modelled as a fueled recursion over an environment that supplies the
  outcome of each network attempt, the `random.random()` draws used for
  jitter, and the wall-clock duration of each network call.  Float
  arithmetic is modelled over `ℚ`.
-/

namespace GoogleSync

/-- The projection of the `file_info` metadata dictionary that
`StateManager` reads (`file_info.get('name', '')` and friends, defaults
already folded in).  The `metadata` column stores `json.dumps(file_info)`,
which round-trips through `json.loads`, so it is modelled as the
`FileInfo` value itself. -/
structure FileInfo where
  name : String
  path : String
  mimeType : String
  size : Nat
  modifiedTime : String
  md5Checksum : String
deriving DecidableEq

/-- One row of the `synced_files` table.  The schema declares `google_id`
`NOT NULL UNIQUE` (globally) and additionally `UNIQUE(google_id, service)`.
The surrogate `id` column is never read by any operation and is omitted. -/
structure SyncedRow where
  google_id : String
  service : String
  file_name : String
  file_path : String
  mime_type : String
  file_size : Nat
  modified_time : String
  silo_file_id : Option String
  checksum : String
  bucket : Option String
  synced_at : Nat
  metadata : FileInfo
deriving DecidableEq

/-- One row of the `upload_queue` table, with `UNIQUE(google_id, service)`
and an AUTOINCREMENT primary key `id`. -/
structure QueueRow where
  id : Nat
  google_id : String
  service : String
  file_name : String
  file_path : String
  mime_type : String
  file_size : Nat
  download_url : Option String
  bucket : String
  status : String
  retry_count : Nat
  last_error : Option String
  created_at : Nat
  last_attempt_at : Option Nat
  metadata : FileInfo
deriving DecidableEq

/-- The persistent state of `StateManager` that the claims touch: the two
tables, plus the AUTOINCREMENT counter for `upload_queue.id`.  Rows are
kept in rowid order (SQLite `REPLACE` inserts the replacement with a fresh
rowid at the end). -/
structure DB where
  synced_files : List SyncedRow
  upload_queue : List QueueRow
  next_queue_id : Nat
deriving DecidableEq

/-- A freshly initialised database (SQLite AUTOINCREMENT starts at 1). -/
def DB.empty : DB := ⟨[], [], 1⟩

/-- `StateManager.is_file_synced`: `SELECT COUNT(*) FROM synced_files WHERE
google_id = ? AND service = ?` compared against 0. -/
def is_file_synced (db : DB) (google_id service : String) : Bool :=
  db.synced_files.any fun r => r.google_id == google_id && r.service == service

/-- The `synced_files` row written by `StateManager.mark_file_synced`. -/
def syncedRowOf (google_id service : String) (file_info : FileInfo)
    (silo_file_id : Option String) (bucket : Option String) (t : Nat) : SyncedRow :=
  { google_id := google_id
    service := service
    file_name := file_info.name
    file_path := file_info.path
    mime_type := file_info.mimeType
    file_size := file_info.size
    modified_time := file_info.modifiedTime
    silo_file_id := silo_file_id
    checksum := file_info.md5Checksum
    bucket := bucket
    synced_at := t
    metadata := file_info }

/-- `StateManager.mark_file_synced`: `INSERT OR REPLACE INTO synced_files`.
`REPLACE` first deletes every existing row that conflicts with the new row
on any unique constraint; since `google_id` alone is declared `UNIQUE`,
every row with this `google_id` (whatever its `service`) is deleted, then
the new row is inserted. -/
def mark_file_synced (db : DB) (google_id service : String) (file_info : FileInfo)
    (silo_file_id : Option String) (bucket : Option String) (t : Nat) : DB :=
  { db with
    synced_files :=
      db.synced_files.filter (fun r => !(r.google_id == google_id)) ++
        [syncedRowOf google_id service file_info silo_file_id bucket t] }

/-- `StateManager.add_to_upload_queue`: `INSERT OR REPLACE INTO upload_queue`
with an explicit `'pending'` status.  The column list omits `retry_count`,
`last_error` and `last_attempt_at`, so the replacement row gets the schema
defaults (`retry_count = 0`, the others NULL); the conflicting unique
constraint is `UNIQUE(google_id, service)`. -/
def add_to_upload_queue (db : DB) (google_id service : String) (file_info : FileInfo)
    (bucket : String) (download_url : Option String) (t : Nat) : DB :=
  { db with
    upload_queue :=
      db.upload_queue.filter
          (fun r => !(r.google_id == google_id && r.service == service)) ++
        [{ id := db.next_queue_id
           google_id := google_id
           service := service
           file_name := file_info.name
           file_path := file_info.path
           mime_type := file_info.mimeType
           file_size := file_info.size
           download_url := download_url
           bucket := bucket
           status := "pending"
           retry_count := 0
           last_error := none
           created_at := t
           last_attempt_at := none
           metadata := file_info }]
    next_queue_id := db.next_queue_id + 1 }

/-- `StateManager.get_pending_uploads`: `SELECT * FROM upload_queue WHERE
status = 'pending' OR status = 'retrying' ORDER BY created_at ASC LIMIT ?`. -/
def get_pending_uploads (db : DB) (limit : Nat) : List QueueRow :=
  ((db.upload_queue.filter fun r =>
      r.status == "pending" || r.status == "retrying").mergeSort
    (fun a b => decide (a.created_at ≤ b.created_at))).take limit

/-- The durable state in the middle of `StateManager.update_upload_status`
for the promotion branch (`status == 'completed' and silo_file_id`): the
nested call to `mark_file_synced` opens its OWN connection and commits, so
this state hits the disk before the `DELETE FROM upload_queue` (which runs
on the outer connection and commits later). -/
def promote_first_commit (db : DB) (queue_id : Nat) (silo_file_id : Option String)
    (t : Nat) : DB :=
  match db.upload_queue.find? (fun r => r.id == queue_id) with
  | some item =>
      mark_file_synced db item.google_id item.service item.metadata silo_file_id
        (some item.bucket) t
  | none => db

/-- `StateManager.update_upload_status`.  The guard is Python truthiness:
`status == 'completed' and silo_file_id` requires a non-None, non-empty
string.  In the promotion branch the row is looked up, promoted via
`mark_file_synced`, and deleted; otherwise the row's `status`, `last_error`
and `last_attempt_at` are updated and `retry_count` is incremented. -/
def update_upload_status (db : DB) (queue_id : Nat) (status : String)
    (error_message : Option String) (silo_file_id : Option String) (t : Nat) : DB :=
  if status == "completed" && silo_file_id.getD "" != "" then
    match db.upload_queue.find? (fun r => r.id == queue_id) with
    | some item =>
        let db1 := mark_file_synced db item.google_id item.service item.metadata
          silo_file_id (some item.bucket) t
        { db1 with upload_queue := db1.upload_queue.filter (fun r => !(r.id == queue_id)) }
    | none => db
  else
    { db with
      upload_queue := db.upload_queue.map fun r =>
        if r.id == queue_id then
          { r with
            status := status
            last_error := error_message
            last_attempt_at := some t
            retry_count := r.retry_count + 1 }
        else r }

/-! ## Upload client (`silo_client.py`, `SiloUploadClient`) -/

/-- The outcome of one iteration of the `upload_file` try-body, as supplied
by the environment: an HTTP response (with the `Retry-After` header parsed
when present, and the file id extracted from the 200 JSON body under either
accepted key), a `requests.ConnectionError`, a `requests.Timeout`, or any
other exception (stream seek failure, JSON decode failure, a malformed
`Retry-After` header, ...), which the code catches as `Exception`. -/
inductive Outcome where
  | response (status : Nat) (body : String) (retryAfter : Option Nat) (fileId : Option String)
  | connError (msg : String)
  | timeoutError (msg : String)
  | otherError (msg : String)
deriving DecidableEq

/-- The `UploadResult` dataclass. -/
structure UploadResult where
  success : Bool
  file_id : Option String := none
  file_name : Option String := none
  error_message : Option String := none
  status_code : Option Nat := none
  retry_after : Option Nat := none
deriving DecidableEq

/-- The `SiloUploadClient` configuration fields the retry loop reads. -/
structure Cfg where
  max_retries : Nat
  initial_backoff : ℚ
  max_backoff : ℚ

/-- The environment of a run of `upload_file`: for each attempt index, the
outcome of that attempt, the `random.random()` draw consumed if a backoff
is computed, and the wall-clock duration of the network call. -/
structure Env where
  outcome : Nat → Outcome
  rand : Nat → ℚ
  netDur : Nat → ℚ

/-- The client's mutable timing state: the current wall clock and
`_rate_limit_until`. -/
structure St where
  now : ℚ
  rlUntil : ℚ
deriving DecidableEq

/-- Observable timing events of a run: a sleep inside
`_wait_if_rate_limited`, a network attempt (`requests.post`), or a
`time.sleep(backoff)` after a retryable failure. -/
inductive Ev where
  | rateWait (d : ℚ)
  | net (i : Nat)
  | backoffSleep (d : ℚ)
deriving DecidableEq

/-- `SiloUploadClient._calculate_backoff`, with the `random.random()` draw
(uniform on `[0,1]`) passed explicitly:
`backoff = min(initial_backoff * 2**retry_count, max_backoff)`,
`jitter = backoff * 0.2 * (2*random.random() - 1)`,
result `max(0.1, backoff + jitter)`. -/
def calculate_backoff (initial_backoff max_backoff : ℚ) (retry_count : Nat)
    (rand : ℚ) : ℚ :=
  let backoff := min (initial_backoff * 2 ^ retry_count) max_backoff
  let jitter := backoff * (2 / 10) * (2 * rand - 1)
  max (1 / 10) (backoff + jitter)

/-- `SiloUploadClient._wait_if_rate_limited`: when `time.time()` is before
`_rate_limit_until`, sleep the remaining duration (advancing the clock to
the window's end); otherwise do nothing. -/
def waitIfRateLimited (st : St) : St × List Ev :=
  if st.now < st.rlUntil then
    ({ st with now := st.rlUntil }, [Ev.rateWait (st.rlUntil - st.now)])
  else (st, [])

/-- The body of `SiloUploadClient.upload_file`'s `while retry_count <=
max_retries` loop, as a fueled recursion.  `attempt` is the current value
of `retry_count`; the loop is entered with fuel `max_retries + 1 -
attempt`, so the fuel-0 case is the `# Should not reach here` fallthrough
after the loop.  Returns the result, the number of network attempts made,
the timing-event trace, and the final timing state. -/
def uploadGo (cfg : Cfg) (env : Env) (file_name : String) :
    Nat → Nat → St → UploadResult × Nat × List Ev × St
  | _, 0, st =>
    ({ success := false, file_name := some file_name,
       error_message := some "Max retries exceeded" }, 0, [], st)
  | attempt, fuel + 1, st =>
    let w := waitIfRateLimited st
    let st1 : St := { w.1 with now := w.1.now + env.netDur attempt }
    let pre : List Ev := w.2 ++ [Ev.net attempt]
    match env.outcome attempt with
    | .response status body retryAfter fileId =>
      if status == 200 then
        ({ success := true, file_id := fileId, file_name := some file_name,
           status_code := some 200 }, 1, pre, st1)
      else if status == 429 then
        let ra := retryAfter.getD 60
        let st2 : St := { st1 with rlUntil := st1.now + (ra : ℚ) }
        if attempt + 1 > cfg.max_retries then
          ({ success := false, file_name := some file_name,
             error_message := some "Max retries exceeded due to rate limiting",
             status_code := some 429, retry_after := some ra }, 1, pre, st2)
        else
          let rest := uploadGo cfg env file_name (attempt + 1) fuel st2
          (rest.1, rest.2.1 + 1, pre ++ rest.2.2.1, rest.2.2.2)
      else if status == 500 || status == 502 || status == 503 || status == 504 then
        let b := calculate_backoff cfg.initial_backoff cfg.max_backoff attempt
          (env.rand attempt)
        if attempt + 1 > cfg.max_retries then
          ({ success := false, file_name := some file_name,
             error_message := some ("Server error: " ++ toString status),
             status_code := some status }, 1, pre, st1)
        else
          let rest := uploadGo cfg env file_name (attempt + 1) fuel
            { st1 with now := st1.now + b }
          (rest.1, rest.2.1 + 1, pre ++ Ev.backoffSleep b :: rest.2.2.1, rest.2.2.2)
      else
        ({ success := false, file_name := some file_name,
           error_message := some
             ("Upload failed with status " ++ toString status ++ ": " ++ body.take 200),
           status_code := some status }, 1, pre, st1)
    | .connError m =>
      let b := calculate_backoff cfg.initial_backoff cfg.max_backoff attempt
        (env.rand attempt)
      if attempt + 1 > cfg.max_retries then
        ({ success := false, file_name := some file_name,
           error_message := some ("Connection error: " ++ m) }, 1, pre, st1)
      else
        let rest := uploadGo cfg env file_name (attempt + 1) fuel
          { st1 with now := st1.now + b }
        (rest.1, rest.2.1 + 1, pre ++ Ev.backoffSleep b :: rest.2.2.1, rest.2.2.2)
    | .timeoutError m =>
      let b := calculate_backoff cfg.initial_backoff cfg.max_backoff attempt
        (env.rand attempt)
      if attempt + 1 > cfg.max_retries then
        ({ success := false, file_name := some file_name,
           error_message := some ("Timeout error: " ++ m) }, 1, pre, st1)
      else
        let rest := uploadGo cfg env file_name (attempt + 1) fuel
          { st1 with now := st1.now + b }
        (rest.1, rest.2.1 + 1, pre ++ Ev.backoffSleep b :: rest.2.2.1, rest.2.2.2)
    | .otherError m =>
      ({ success := false, file_name := some file_name,
         error_message := some ("Unexpected error: " ++ m) }, 1, pre, st1)

/-- `SiloUploadClient.upload_file`: the loop starts at `retry_count = 0`
with `_rate_limit_until = 0` and the clock at 0. -/
def upload_file (cfg : Cfg) (env : Env) (file_name : String) :
    UploadResult × Nat × List Ev × St :=
  uploadGo cfg env file_name 0 (cfg.max_retries + 1) ⟨0, 0⟩

/-- Recogniser for network-attempt events. -/
def isNet : Ev → Bool
  | .net _ => true
  | _ => false

/-! ## Concrete fixtures used by counterexamples and witnesses -/

/-- A sample `file_info` dictionary. -/
def fiSample : FileInfo := ⟨"a.txt", "/a.txt", "text/plain", 3, "2024-01-01", "abc"⟩

/-- Queue state with one row for `("g1", "drive")` (queue id 1). -/
def dbRetry1 : DB := add_to_upload_queue DB.empty "g1" "drive" fiSample "files" none 10

/-- `dbRetry1` after a failed attempt was recorded: the row now has
`status = "failed"` and `retry_count = 1`. -/
def dbRetry2 : DB := update_upload_status dbRetry1 1 "failed" (some "boom") none 11

/-- `dbRetry2` after the same `("g1", "drive")` item is enqueued again. -/
def dbRetry3 : DB := add_to_upload_queue dbRetry2 "g1" "drive" fiSample "files" none 12

/-- Queue state with one row for `("g1", "drive")` (queue id 1), about to be
promoted. -/
def dbPromote : DB := add_to_upload_queue DB.empty "g1" "drive" fiSample "files" none 1

/-- Queue state with rows for `("g1", "drive")` (created at 5) and
`("g2", "drive")` (created at 7). -/
def dbQ : DB :=
  add_to_upload_queue (add_to_upload_queue DB.empty "g1" "drive" fiSample "files" none 5)
    "g2" "drive" fiSample "files" none 7

/-- A sample client configuration (`max_retries = 5`, the default). -/
def cfgW : Cfg := ⟨5, 1, 300⟩

/-- An environment whose every attempt receives HTTP 404. -/
def envNotFound : Env := ⟨fun _ => .response 404 "not found" none none, fun _ => 1, fun _ => 0⟩

/-- An environment whose every attempt raises a non-requests exception. -/
def envBoom : Env := ⟨fun _ => .otherError "boom", fun _ => 1, fun _ => 0⟩

/-- An environment whose every attempt receives HTTP 429 with
`Retry-After: 7`. -/
def env429W : Env := ⟨fun _ => .response 429 "slow down" (some 7) none, fun _ => 1, fun _ => 0⟩

/-! ## Ledger theorems -/

/-- Claim C3: for any `(google_id, service)` pair, calling `mark_file_synced`
twice (with possibly different file info, silo id, or bucket) leaves exactly
one `synced_files` row for the pair, carrying the values of the second call,
and `is_file_synced` returns true afterwards. -/
theorem mark_file_synced_idempotent_upsert
    (db : DB) (g s : String) (fi1 fi2 : FileInfo) (sid1 sid2 : Option String)
    (b1 b2 : Option String) (t1 t2 : Nat) :
    ((mark_file_synced (mark_file_synced db g s fi1 sid1 b1 t1) g s fi2 sid2 b2 t2).synced_files.filter
        (fun r => r.google_id == g && r.service == s)) = [syncedRowOf g s fi2 sid2 b2 t2]
    ∧ is_file_synced (mark_file_synced (mark_file_synced db g s fi1 sid1 b1 t1) g s fi2 sid2 b2 t2) g s
        = true := by
  constructor
  · simp [mark_file_synced, List.filter_append, List.filter_filter, syncedRowOf,
      List.filter_eq_nil_iff]
    exact fun a _ h1 _ => h1
  · simp [is_file_synced, mark_file_synced, syncedRowOf]

/-- Claim C9: because `google_id` is globally UNIQUE in `synced_files`,
marking the same id under a second service replaces the first service's
record: afterwards exactly one row exists for the id, `is_file_synced` is
true for the second service and false for the first (although it was true
right after the first call). -/
theorem mark_file_synced_cross_service (db : DB) (g s1 s2 : String)
    (fi1 fi2 : FileInfo) (sid1 sid2 : Option String) (b1 b2 : Option String)
    (t1 t2 : Nat) (hss : s1 ≠ s2) :
    ((mark_file_synced (mark_file_synced db g s1 fi1 sid1 b1 t1) g s2 fi2 sid2 b2 t2).synced_files.filter
        (fun r => r.google_id == g)) = [syncedRowOf g s2 fi2 sid2 b2 t2]
    ∧ is_file_synced (mark_file_synced (mark_file_synced db g s1 fi1 sid1 b1 t1) g s2 fi2 sid2 b2 t2) g s2
        = true
    ∧ is_file_synced (mark_file_synced db g s1 fi1 sid1 b1 t1) g s1 = true
    ∧ is_file_synced (mark_file_synced (mark_file_synced db g s1 fi1 sid1 b1 t1) g s2 fi2 sid2 b2 t2) g s1
        = false := by
  refine ⟨?_, ?_, ?_, ?_⟩
  · simp [mark_file_synced, List.filter_append, List.filter_filter, syncedRowOf,
      List.filter_eq_nil_iff]
  · simp [is_file_synced, mark_file_synced, syncedRowOf]
  · simp [is_file_synced, mark_file_synced, syncedRowOf]
  · simp only [is_file_synced, mark_file_synced, syncedRowOf, List.any_append,
      Bool.or_eq_false_iff]
    refine ⟨?_, ?_⟩
    · rw [List.any_eq_false]
      intro r hr
      have hne := (List.mem_filter.mp hr).2
      simp at hne ⊢
      intro h
      exact absurd h hne
    · simp
      exact Ne.symm hss

/-- Witness for `mark_file_synced_cross_service` at concrete inputs. -/
theorem mark_file_synced_cross_service_witness :
    ("drive" : String) ≠ "photos"
    ∧ (((mark_file_synced (mark_file_synced DB.empty "g" "drive" fiSample (some "S1") (some "b") 1)
          "g" "photos" fiSample (some "S2") (some "b") 2).synced_files.filter
            (fun r => r.google_id == "g")) = [syncedRowOf "g" "photos" fiSample (some "S2") (some "b") 2]
        ∧ is_file_synced (mark_file_synced (mark_file_synced DB.empty "g" "drive" fiSample (some "S1") (some "b") 1)
            "g" "photos" fiSample (some "S2") (some "b") 2) "g" "photos" = true
        ∧ is_file_synced (mark_file_synced DB.empty "g" "drive" fiSample (some "S1") (some "b") 1) "g" "drive" = true
        ∧ is_file_synced (mark_file_synced (mark_file_synced DB.empty "g" "drive" fiSample (some "S1") (some "b") 1)
            "g" "photos" fiSample (some "S2") (some "b") 2) "g" "drive" = false) :=
  ⟨by decide,
    mark_file_synced_cross_service DB.empty "g" "drive" "photos" fiSample fiSample
      (some "S1") (some "S2") (some "b") (some "b") 1 2 (by decide)⟩

/-- Claim C2 (amended): `add_to_upload_queue` is an `INSERT OR REPLACE`
upsert: afterwards exactly one queue row exists for the pair, with
`status = "pending"` and `retry_count` reset to the schema default 0 —
whether or not a row already existed, and whatever `retry_count` the old
row carried. -/
theorem add_to_upload_queue_upsert_resets (db : DB) (g s : String) (fi : FileInfo)
    (b : String) (d : Option String) (t : Nat) :
    (((add_to_upload_queue db g s fi b d t).upload_queue.filter
        (fun r => r.google_id == g && r.service == s)).map
      fun r => (r.status, r.retry_count)) = [("pending", 0)] := by
  simp [add_to_upload_queue, List.filter_append, List.filter_filter,
    List.filter_eq_nil_iff]

/-- Claim C2, counterexample to the claim as stated: the `("g1", "drive")`
row of `dbRetry2` has `retry_count = 1`, but re-enqueueing the pair leaves
the row with `retry_count = 0`, not the claimed `[("pending", 1)]` —
`INSERT OR REPLACE` does not preserve `retry_count`. -/
theorem add_to_upload_queue_retry_not_preserved :
    (dbRetry2.upload_queue.map fun r => (r.google_id, r.service, r.retry_count))
      = [("g1", "drive", 1)]
    ∧ (dbRetry3.upload_queue.map fun r => (r.google_id, r.service, r.status, r.retry_count))
      = [("g1", "drive", "pending", 0)]
    ∧ ¬(dbRetry3.upload_queue.map fun r => (r.status, r.retry_count)) = [("pending", 1)] :=
  ⟨by decide, by decide, by decide⟩

/-- Claim C1: the promotion inside `update_upload_status(1, "completed",
silo_file_id = "X")` is NOT atomic.  `promote_first_commit` is the durable
state after the nested `mark_file_synced` commits (on its own connection)
and before the queue `DELETE` commits: at that point `is_file_synced` is
already true while the queue row still exists — both a SyncedRecord and a
stale QueueItem are visible, which the claim says can never happen.  The
last two conjuncts record that the completed call does reach the claimed
final state. -/
theorem update_upload_status_crash_window :
    is_file_synced (promote_first_commit dbPromote 1 (some "X") 2) "g1" "drive" = true
    ∧ ((promote_first_commit dbPromote 1 (some "X") 2).upload_queue.filter
        (fun r => r.google_id == "g1" && r.service == "drive")).length = 1
    ∧ is_file_synced (update_upload_status dbPromote 1 "completed" none (some "X") 2) "g1" "drive"
        = true
    ∧ (update_upload_status dbPromote 1 "completed" none (some "X") 2).upload_queue = [] :=
  ⟨by decide, by decide, by decide, by decide⟩

/-- The promotion branch of `update_upload_status` is exactly
`promote_first_commit` followed by the queue `DELETE`: the two durable
steps the crash window sits between. -/
lemma update_upload_status_eq_delete_after_promote (db : DB) (qid : Nat)
    (em : Option String) (sid : String) (t : Nat) (hs : sid ≠ "") :
    update_upload_status db qid "completed" em (some sid) t =
      { promote_first_commit db qid (some sid) t with
        upload_queue :=
          (promote_first_commit db qid (some sid) t).upload_queue.filter
            fun r => !(r.id == qid) } := by
  have hb : (some sid).getD "" != "" := by simpa using hs
  simp only [update_upload_status, promote_first_commit, hb]
  cases h : db.upload_queue.find? (fun r => r.id == qid) <;>
    simp [h, mark_file_synced]
  have h2 : db.upload_queue.filter (fun r => !(r.id == qid)) = db.upload_queue := by
    rw [List.filter_eq_self]
    intro a ha
    simpa using List.find?_eq_none.mp h a ha
  rw [h2]

/-- Claim C8: `get_pending_uploads` returns only rows whose status is
`pending` or `retrying`, in `created_at`-ascending order, at most `limit`
of them; and the non-promotion branch of `update_upload_status` (used to
record a retry) never changes any row's `created_at` (nor its id), so
retried rows keep their original position. -/
theorem get_pending_uploads_spec (db : DB) (limit : Nat) (qid : Nat) (stat : String)
    (em sfi : Option String) (t : Nat)
    (hst : (stat == "completed" && sfi.getD "" != "") = false) :
    (∀ r ∈ get_pending_uploads db limit, r.status = "pending" ∨ r.status = "retrying")
    ∧ List.Pairwise (fun a b : QueueRow => a.created_at ≤ b.created_at)
        (get_pending_uploads db limit)
    ∧ (get_pending_uploads db limit).length ≤ limit
    ∧ ((update_upload_status db qid stat em sfi t).upload_queue.map
        fun r => (r.id, r.created_at)) = db.upload_queue.map fun r => (r.id, r.created_at) := by
  refine ⟨?_, ?_, ?_, ?_⟩
  · intro r hr
    have h1 := List.mem_of_mem_take hr
    have h2 := List.mem_mergeSort.mp h1
    have h3 := (List.mem_filter.mp h2).2
    simpa using h3
  · apply List.Pairwise.sublist (List.take_sublist _ _)
    have hs := @List.sorted_mergeSort QueueRow
      (fun a b : QueueRow => decide (a.created_at ≤ b.created_at))
      (fun a b c hab hbc => by
        simp only [decide_eq_true_eq] at *
        omega)
      (fun a b => by
        simp only [Bool.or_eq_true, decide_eq_true_eq]
        omega)
      (db.upload_queue.filter fun r => r.status == "pending" || r.status == "retrying")
    exact hs.imp fun h => by simpa using h
  · simp [get_pending_uploads, List.length_take]
  · simp only [update_upload_status, hst, Bool.false_eq_true, if_false]
    rw [List.map_map]
    apply List.map_congr_left
    intro r _
    simp only [Function.comp_apply]
    split <;> simp

/-- Witness for `get_pending_uploads_spec` at concrete inputs. -/
theorem get_pending_uploads_spec_witness :
    (("retrying" : String) == "completed" && (none : Option String).getD "" != "") = false
    ∧ ((∀ r ∈ get_pending_uploads dbQ 1, r.status = "pending" ∨ r.status = "retrying")
        ∧ List.Pairwise (fun a b : QueueRow => a.created_at ≤ b.created_at)
            (get_pending_uploads dbQ 1)
        ∧ (get_pending_uploads dbQ 1).length ≤ 1
        ∧ ((update_upload_status dbQ 1 "retrying" (some "e") none 9).upload_queue.map
            fun r => (r.id, r.created_at)) = dbQ.upload_queue.map fun r => (r.id, r.created_at)) :=
  ⟨by decide, get_pending_uploads_spec dbQ 1 1 "retrying" (some "e") none 9 (by decide)⟩

/-! ## Upload client theorems -/

/-- The events emitted by `_wait_if_rate_limited` contain no network
attempt. -/
lemma countP_isNet_waitIfRateLimited (st : St) :
    (waitIfRateLimited st).2.countP isNet = 0 := by
  unfold waitIfRateLimited
  split <;> simp [isNet]

/-- Each loop iteration of `upload_file` performs exactly one network
attempt, and the number of attempts is bounded by the fuel. -/
lemma uploadGo_attempts (cfg : Cfg) (env : Env) (name : String) :
    ∀ fuel attempt st,
      (uploadGo cfg env name attempt fuel st).2.2.1.countP isNet
          = (uploadGo cfg env name attempt fuel st).2.1
      ∧ (uploadGo cfg env name attempt fuel st).2.1 ≤ fuel := by
  intro fuel
  induction fuel with
  | zero => intro a st; simp [uploadGo]
  | succ f ih =>
    intro a st
    cases h : env.outcome a <;>
      simp only [uploadGo, h] <;>
      (repeat' split) <;>
      simp [List.countP_append, List.countP_cons, countP_isNet_waitIfRateLimited, isNet,
        (ih _ _).1, (ih _ _).2]

/-- Claim C6: whatever the environment produces, `upload_file` makes at
most `max_retries + 1` network attempts (the returned attempt counter is
exactly the number of network events in the trace, and is bounded). -/
theorem upload_file_attempt_bound (cfg : Cfg) (env : Env) (name : String) :
    (upload_file cfg env name).2.2.1.countP isNet = (upload_file cfg env name).2.1
    ∧ (upload_file cfg env name).2.1 ≤ cfg.max_retries + 1 :=
  ⟨(uploadGo_attempts cfg env name _ _ _).1, (uploadGo_attempts cfg env name _ _ _).2⟩

/-- Claim C4: a first-attempt response whose status is non-2xx and none of
429/500/502/503/504 makes `upload_file` return a failed result after
exactly one network attempt, whatever `max_retries` is, with the response
body truncated to 200 characters inside the error message and the status
recorded in `status_code`. -/
theorem upload_file_nonretryable_short_circuit (cfg : Cfg) (env : Env) (name : String)
    (s : Nat) (body : String) (ra : Option Nat) (fid : Option String)
    (henv : env.outcome 0 = .response s body ra fid)
    (h2xx : s < 200 ∨ 300 ≤ s) (h429 : s ≠ 429)
    (h500 : s ≠ 500) (h502 : s ≠ 502) (h503 : s ≠ 503) (h504 : s ≠ 504) :
    (upload_file cfg env name).1 =
      { success := false, file_name := some name,
        error_message := some
          ("Upload failed with status " ++ toString s ++ ": " ++ body.take 200),
        status_code := some s }
    ∧ (upload_file cfg env name).2.1 = 1 := by
  have e200 : (s == 200) = false := by simp; omega
  have e429 : (s == 429) = false := by simp [h429]
  have e500 : (s == 500) = false := by simp [h500]
  have e502 : (s == 502) = false := by simp [h502]
  have e503 : (s == 503) = false := by simp [h503]
  have e504 : (s == 504) = false := by simp [h504]
  constructor <;>
    simp [upload_file, uploadGo, henv, e200, e429, e500, e502, e503, e504]

/-- Witness for `upload_file_nonretryable_short_circuit`: a 404 response
with `max_retries = 5`. -/
theorem upload_file_nonretryable_short_circuit_witness :
    envNotFound.outcome 0 = .response 404 "not found" none none
    ∧ ((404:Nat) < 200 ∨ 300 ≤ (404:Nat))
    ∧ (404:Nat) ≠ 429 ∧ (404:Nat) ≠ 500 ∧ (404:Nat) ≠ 502 ∧ (404:Nat) ≠ 503 ∧ (404:Nat) ≠ 504
    ∧ ((upload_file cfgW envNotFound "f").1 =
        { success := false, file_name := some "f",
          error_message := some
            ("Upload failed with status " ++ toString (404:Nat) ++ ": " ++ ("not found").take 200),
          status_code := some 404 }
        ∧ (upload_file cfgW envNotFound "f").2.1 = 1) :=
  ⟨rfl, by decide, by decide, by decide, by decide, by decide, by decide,
    upload_file_nonretryable_short_circuit cfgW envNotFound "f" 404 "not found" none none rfl
      (by decide) (by decide) (by decide) (by decide) (by decide) (by decide)⟩

/-- Claim C10: a non-connection, non-timeout exception on the first attempt
(stream seek failure, JSON decode failure, ...) makes `upload_file` return
a failed result immediately after one attempt, with the exception text in
`error_message` and no `status_code`, consuming no retries. -/
theorem upload_file_unexpected_error_terminal (cfg : Cfg) (env : Env) (name msg : String)
    (henv : env.outcome 0 = .otherError msg) :
    (upload_file cfg env name).1 =
      { success := false, file_name := some name,
        error_message := some ("Unexpected error: " ++ msg) }
    ∧ (upload_file cfg env name).2.1 = 1 := by
  constructor <;> simp [upload_file, uploadGo, henv]

/-- Witness for `upload_file_unexpected_error_terminal`. -/
theorem upload_file_unexpected_error_terminal_witness :
    envBoom.outcome 0 = .otherError "boom"
    ∧ ((upload_file cfgW envBoom "f").1 =
        { success := false, file_name := some "f",
          error_message := some ("Unexpected error: " ++ "boom") }
        ∧ (upload_file cfgW envBoom "f").2.1 = 1) :=
  ⟨rfl, upload_file_unexpected_error_terminal cfgW envBoom "f" "boom" rfl⟩

/-- When the current clock is inside the rate-limit window,
`_wait_if_rate_limited` sleeps exactly the remaining duration. -/
lemma waitIfRateLimited_of_lt (st : St) (h : st.now < st.rlUntil) :
    waitIfRateLimited st = ({ st with now := st.rlUntil }, [Ev.rateWait (st.rlUntil - st.now)]) := by
  unfold waitIfRateLimited
  rw [if_pos h]

/-- Every loop iteration's event trace starts with the rate-limit pre-check
wait (if any) followed by the network attempt. -/
lemma uploadGo_events_shape (cfg : Cfg) (env : Env) (name : String) (a fuel : Nat) (st : St) :
    ((waitIfRateLimited st).2 ++ [Ev.net a]) <+: (uploadGo cfg env name a (fuel + 1) st).2.2.1 := by
  cases h : env.outcome a <;>
    simp only [uploadGo, h] <;>
    (repeat' split) <;>
    first
      | exact List.prefix_rfl
      | exact List.prefix_append _ _

/-- One 429 iteration with retry budget left: the rate-limit window is
opened at `now + retryAfter.getD 60`, the attempt counter moves to
`attempt + 1`, no sleep happens in this branch, and the loop continues. -/
lemma uploadGo_429_step (cfg : Cfg) (env : Env) (name : String) (i fuel : Nat) (st : St)
    (body : String) (ra : Option Nat) (fid : Option String)
    (hout : env.outcome i = .response 429 body ra fid)
    (hngt : ¬(i + 1 > cfg.max_retries)) :
    uploadGo cfg env name i (fuel + 1) st =
      ((uploadGo cfg env name (i + 1) fuel
          ⟨(waitIfRateLimited st).1.now + env.netDur i,
            (waitIfRateLimited st).1.now + env.netDur i + ((ra.getD 60 : Nat) : ℚ)⟩).1,
        (uploadGo cfg env name (i + 1) fuel
          ⟨(waitIfRateLimited st).1.now + env.netDur i,
            (waitIfRateLimited st).1.now + env.netDur i + ((ra.getD 60 : Nat) : ℚ)⟩).2.1 + 1,
        ((waitIfRateLimited st).2 ++ [Ev.net i]) ++
          (uploadGo cfg env name (i + 1) fuel
            ⟨(waitIfRateLimited st).1.now + env.netDur i,
              (waitIfRateLimited st).1.now + env.netDur i + ((ra.getD 60 : Nat) : ℚ)⟩).2.2.1,
        (uploadGo cfg env name (i + 1) fuel
          ⟨(waitIfRateLimited st).1.now + env.netDur i,
            (waitIfRateLimited st).1.now + env.netDur i + ((ra.getD 60 : Nat) : ℚ)⟩).2.2.2) := by
  have e1 : ((429:Nat) == 200) = false := by decide
  have e2 : ((429:Nat) == 429) = true := by decide
  simp only [uploadGo, hout, e1, e2, Bool.false_eq_true, if_false, if_true, hngt]

/-- Claim C7: when attempt `i` receives a 429 and budget remains, the event
trace continues with the network attempt `i`, then — with no backoff sleep
in between — a rate-limit wait of exactly `Retry-After` seconds (60 when
the header is absent) at the start of attempt `i + 1`, then the next
network attempt: the wait is deferred to `_wait_if_rate_limited` in the
next iteration, and the failure consumed one unit of the retry budget. -/
theorem upload_429_rate_limit_deferred (cfg : Cfg) (env : Env) (name : String)
    (i fuel : Nat) (st : St) (body : String) (ra : Option Nat) (fid : Option String)
    (hout : env.outcome i = .response 429 body ra fid)
    (hcont : i + 1 ≤ cfg.max_retries) (hra : 0 < ra.getD 60) :
    ((waitIfRateLimited st).2
        ++ [Ev.net i, Ev.rateWait ((ra.getD 60 : Nat) : ℚ), Ev.net (i + 1)])
      <+: (uploadGo cfg env name i (fuel + 2) st).2.2.1 := by
  have hngt : ¬(i + 1 > cfg.max_retries) := by omega
  rw [show fuel + 2 = (fuel + 1) + 1 by omega,
    uploadGo_429_step cfg env name i (fuel + 1) st body ra fid hout hngt]
  dsimp only
  have hlt : ((waitIfRateLimited st).1.now + env.netDur i : ℚ) <
      (waitIfRateLimited st).1.now + env.netDur i + ((ra.getD 60 : Nat) : ℚ) := by
    have : (0:ℚ) < ((ra.getD 60 : Nat) : ℚ) := by exact_mod_cast hra
    linarith
  have hw := waitIfRateLimited_of_lt
    ⟨(waitIfRateLimited st).1.now + env.netDur i,
      (waitIfRateLimited st).1.now + env.netDur i + ((ra.getD 60 : Nat) : ℚ)⟩ hlt
  dsimp only at hw
  rw [add_sub_cancel_left] at hw
  have hsub := uploadGo_events_shape cfg env name (i + 1) fuel
    ⟨(waitIfRateLimited st).1.now + env.netDur i,
      (waitIfRateLimited st).1.now + env.netDur i + ((ra.getD 60 : Nat) : ℚ)⟩
  rw [hw] at hsub
  obtain ⟨t2, ht2⟩ := hsub
  refine ⟨t2, ?_⟩
  rw [← ht2]
  simp

/-- Witness for `upload_429_rate_limit_deferred`: `Retry-After: 7` on
attempt 0 with `max_retries = 5`. -/
theorem upload_429_rate_limit_deferred_witness :
    env429W.outcome 0 = .response 429 "slow down" (some 7) none
    ∧ 0 + 1 ≤ cfgW.max_retries
    ∧ 0 < (some 7 : Option Nat).getD 60
    ∧ ((waitIfRateLimited ⟨0, 0⟩).2
        ++ [Ev.net 0, Ev.rateWait (((some 7 : Option Nat).getD 60 : Nat) : ℚ), Ev.net (0 + 1)])
      <+: (uploadGo cfgW env429W "f" 0 (0 + 2) ⟨0, 0⟩).2.2.1 :=
  ⟨rfl, by decide, by decide,
    upload_429_rate_limit_deferred cfgW env429W "f" 0 0 ⟨0, 0⟩ "slow down" (some 7) none rfl
      (by decide) (by decide)⟩

/-- Claim C5: under a non-negative `initial_backoff`, a `max_backoff` of at
least one second, and a jitter draw in `[0, 1]`, the computed backoff is at
least `0.1`, at most `max_backoff * 1.2`, and (for any fixed draw)
non-decreasing in the retry count — hence non-decreasing in expectation. -/
theorem calculate_backoff_spec (ib mb r : ℚ) (k k' : Nat)
    (hib : 0 ≤ ib) (hmb : 1 ≤ mb) (hr0 : 0 ≤ r) (hr1 : r ≤ 1) (hk : k ≤ k') :
    1 / 10 ≤ calculate_backoff ib mb k r
    ∧ calculate_backoff ib mb k r ≤ mb * (12 / 10)
    ∧ calculate_backoff ib mb k r ≤ calculate_backoff ib mb k' r := by
  have hb0 : ∀ n : Nat, (0:ℚ) ≤ min (ib * 2 ^ n) mb := fun n =>
    le_min (mul_nonneg hib (by positivity)) (by linarith)
  have hbmb : ∀ n : Nat, min (ib * 2 ^ n) mb ≤ mb := fun n => min_le_right _ _
  unfold calculate_backoff
  refine ⟨le_max_left _ _, ?_, ?_⟩
  · apply max_le
    · linarith
    · have h1 := hb0 k
      have h2 := hbmb k
      set b := min (ib * 2 ^ k) mb
      nlinarith [mul_nonneg (mul_nonneg h1 (by norm_num : (0:ℚ) ≤ 2/10))
        (by linarith : (0:ℚ) ≤ 2 - 2 * r)]
  · apply max_le_max le_rfl
    have h1 := hb0 k
    have h12 : min (ib * 2 ^ k) mb ≤ min (ib * 2 ^ k') mb :=
      min_le_min (mul_le_mul_of_nonneg_left (pow_le_pow_right₀ (by norm_num) hk) hib) le_rfl
    set b1 := min (ib * 2 ^ k) mb
    set b2 := min (ib * 2 ^ k') mb
    have hc : (0:ℚ) ≤ 1 + 2/10 * (2 * r - 1) := by nlinarith
    nlinarith [mul_nonneg (sub_nonneg.mpr h12) hc]

/-- Witness for `calculate_backoff_spec` at the default configuration. -/
theorem calculate_backoff_spec_witness :
    (0:ℚ) ≤ 1 ∧ (1:ℚ) ≤ 300 ∧ (0:ℚ) ≤ 1 ∧ (1:ℚ) ≤ 1 ∧ 0 ≤ 3
    ∧ (1 / 10 ≤ calculate_backoff 1 300 0 1
        ∧ calculate_backoff 1 300 0 1 ≤ 300 * (12 / 10)
        ∧ calculate_backoff 1 300 0 1 ≤ calculate_backoff 1 300 3 1) :=
  ⟨by decide, by decide, by decide, by decide, by decide,
    calculate_backoff_spec 1 300 1 0 3 (by decide) (by decide) (by decide) (by decide)
      (by decide)⟩

end GoogleSync
